import Mathlib

/-!
Shallow embedding of the dune-weaver position-synchronized lighting engine
(`src/modules/led/led_controller.py`) and the reactive state container
(`src/modules/core/state.py`).

Conventions of the embedding:
* Python floats are modelled as `ℚ`, Python ints as `ℤ`.
* Python `int(x)` (truncation toward zero) is `pytrunc`.
* Python `//` and `%` are floor division and sign-of-divisor modulo, which on
  `ℤ` are `Int.fdiv` and `Int.fmod`.
* `theta` is accompanied by `thetaFrac`, the real value `(theta mod 2π)/(2π)`
  (a value in `[0,1)`): since `2π` is irrational, the normalized angular
  fraction computed by the source is carried as its own rational parameter.
  The throttle gate uses raw `theta`/`rho` differences, which are exact.
* The WLED HTTP transport is modelled by a `NetResult` oracle: either all
  requests of one `_send_command` call succeed and the final parsed device
  state is returned, or some request raises `requests.RequestException`
  (connection failure or timeout), or the response body fails JSON parsing.
* Python exceptions are modelled with `Except PyExc`; a `try/except` block is
  a `match` on the body's result whose handler arms are exactly the `except`
  clauses of the source.
-/

set_option linter.unusedVariables false

set_option allowUnsafeReducibility true
attribute [semireducible] Rat.mul Rat.inv Rat.add Rat.sub

deriving instance DecidableEq for Except

namespace DuneWeaver

/-- Python `int(x)` conversion of a float: truncation toward zero. -/
def pytrunc (x : ℚ) : ℤ :=
  if 0 ≤ x then x.floor else x.ceil

/-! ## ColorMapper (`_theta_to_hue`, `_rho_to_brightness`, `_hsv_to_rgb`) -/

/-- `_theta_to_hue`: `int((normalized_theta / (2*math.pi)) * 360)`, written in
terms of the normalized fraction `thetaFrac = normalized_theta / (2π)`. -/
def thetaToHue (thetaFrac : ℚ) : ℤ :=
  pytrunc (thetaFrac * 360)

/-- `_rho_to_brightness`: clamp rho to `[0,1]`, then
`int(min_brightness + rho * (max_brightness - min_brightness))`. -/
def rhoToBrightness (ρ : ℚ) (min_brightness max_brightness : ℤ) : ℤ :=
  let ρc := max 0 (min 1 ρ)
  pytrunc ((min_brightness : ℚ) + ρc * ((max_brightness : ℚ) - (min_brightness : ℚ)))

/-- `colorsys.hsv_to_rgb` from the Python standard library, on unit-interval
channels. -/
def hsvToRgb01 (h s v : ℚ) : ℚ × ℚ × ℚ :=
  if s = 0 then (v, v, v)
  else
    let i0 : ℤ := pytrunc (h * 6)
    let f : ℚ := h * 6 - (i0 : ℚ)
    let p : ℚ := v * (1 - s)
    let q : ℚ := v * (1 - s * f)
    let t : ℚ := v * (1 - s * (1 - f))
    let i : ℤ := Int.fmod i0 6
    if i = 0 then (v, t, p)
    else if i = 1 then (q, v, p)
    else if i = 2 then (p, v, t)
    else if i = 3 then (p, q, v)
    else if i = 4 then (t, p, v)
    else (v, p, q)

/-- `_hsv_to_rgb`: wrapper scaling `colorsys.hsv_to_rgb(h/360, s, v)` to
`0..255` integer channels. -/
def hsvToRgb255 (h : ℤ) (s v : ℚ) : ℤ × ℤ × ℤ :=
  let c := hsvToRgb01 ((h : ℚ) / 360) s v
  (pytrunc (c.1 * 255), pytrunc (c.2.1 * 255), pytrunc (c.2.2 * 255))

/-! ## SegmentPlanner (`_sync_localized_mode`, segment arithmetic) -/

/-- One WLED segment of the localized-mode plan. `lit = true` stands for
`col = [[r, g, b]]` (ball color), `lit = false` for `col = [[0, 0, 0]]`;
`fx` is always 0 in the source and is omitted. -/
structure Seg where
  start : ℤ
  stop : ℤ
  lit : Bool
deriving DecidableEq, Repr

/-- `led_position = int((normalized_theta / (2 * math.pi)) * total_leds)`,
in terms of the normalized angular fraction. -/
def ledPositionOf (thetaFrac : ℚ) (total_leds : ℤ) : ℤ :=
  pytrunc (thetaFrac * (total_leds : ℚ))

/-- The raw (pre-filter) segment list built by `_sync_localized_mode` from
`led_position`, `total_leds` and `segment_width` (lines 441-498 of the
source): `half_width = segment_width // 2`,
`start_led = (led_position - half_width) % total_leds`,
`end_led = (led_position + half_width) % total_leds`, then either the
non-wrapping three-segment split or the wrap-around split. -/
def localizedSegments (led_position total_leds segment_width : ℤ) : List Seg :=
  let half_width := Int.fdiv segment_width 2
  let start_led := Int.fmod (led_position - half_width) total_leds
  let end_led := Int.fmod (led_position + half_width) total_leds
  if start_led ≤ end_led then
    [⟨0, if 0 < start_led then start_led - 1 else 0, false⟩,
     ⟨start_led, end_led, true⟩,
     ⟨end_led + 1, total_leds - 1, false⟩]
  else
    [⟨0, end_led, true⟩,
     ⟨end_led + 1, start_led - 1, false⟩,
     ⟨start_led, total_leds - 1, true⟩]

/-- The filter `if seg["start"] <= seg["stop"]` applied to the raw segment
list before sending. -/
def validSegments (segs : List Seg) : List Seg :=
  segs.filter (fun s => s.start ≤ s.stop)

/-- How many of the given segments cover LED index `i`. -/
def coverCount (segs : List Seg) (i : ℤ) : ℕ :=
  segs.countP (fun s => s.start ≤ i ∧ i ≤ s.stop)

/-- The `(start, stop)` pairs of the lit segments of a plan. -/
def litRanges (segs : List Seg) : List (ℤ × ℤ) :=
  (segs.filter (fun s => s.lit)).map (fun s => (s.start, s.stop))

/-! ## WLED command construction (`set_brightness`, `set_color`, `set_effect`)

Each of these Python methods either returns a validation-error dictionary
`{"connected": False, "message": ...}` before any network activity, or ends in
`return self._send_command(state_params)`. The pure part is factored into a
`CmdAction`; `none` in an `Option` field of the parameter structures means the
corresponding JSON key is absent. The `hex`/`hex2` string parameters of
`set_color`/`set_effect` (converted by `_hex_to_rgb`) are omitted from the
embedding: no claim concerns them and the dispatcher's strategy methods pass
all colors numerically. -/

/-- One entry of the `"seg"` array sent to WLED. -/
structure SegParam where
  fx : Option ℤ := none
  sx : Option ℤ := none
  ix : Option ℤ := none
  col : List (List ℤ) := []
  pal : Option ℤ := none
  start : Option ℤ := none
  stop : Option ℤ := none
deriving DecidableEq, Repr

/-- The JSON body posted to `/json/state`. -/
structure StateParams where
  seg : List SegParam := []
  bri : Option ℤ := none
  transition : Option ℤ := none
deriving DecidableEq, Repr

/-- Outcome of the pure validation part of a device-command method: either a
validation-error result (returned without any network call), or a
`_send_command(params)` transport request. -/
inductive CmdAction where
  | validationError (message : String)
  | send (params : StateParams)
deriving DecidableEq, Repr

/-- Python `x is not None and not (lo <= x <= hi)` for an optional int. -/
def outOfRangeOpt (x : Option ℤ) (lo hi : ℤ) : Bool :=
  match x with
  | some v => decide (v < lo ∨ hi < v)
  | none => false

/-- `set_brightness`: range-check then `_send_command({"bri": value})`. -/
def setBrightnessAction (value : ℤ) : CmdAction :=
  if ¬ (0 ≤ value ∧ value ≤ 255) then
    .validationError "Brightness must be between 0 and 255"
  else
    .send { seg := [], bri := some value }

/-- `set_color` (hex path omitted): builds `{"seg": [{"col": [[r or 0, g or 0,
b or 0]]}]}`, range-checks only the white channel, then sends. -/
def setColorAction (r g b w : Option ℤ) : CmdAction :=
  let col0 := [r.getD 0, g.getD 0, b.getD 0]
  match w with
  | some wv =>
    if ¬ (0 ≤ wv ∧ wv ≤ 255) then
      .validationError "White value must be between 0 and 255"
    else
      .send { seg := [{ col := [col0 ++ [wv]] }] }
  | none => .send { seg := [{ col := [col0] }] }

/-- `set_effect` (hex paths omitted): the source's sequence of early-return
range checks, then the assembled state parameters. The secondary color is
included when any of `r2, g2, b2, w2` is not `None`. -/
def setEffectAction (effect_index : ℤ) (speed intensity brightness palette : Option ℤ)
    (r g b w : Option ℤ) (r2 g2 b2 w2 : Option ℤ) (transition : ℤ) : CmdAction :=
  if ¬ (0 ≤ effect_index ∧ effect_index ≤ 101) then
    .validationError "Effect index must be between 0 and 101"
  else if outOfRangeOpt speed 0 255 then
    .validationError "Speed must be between 0 and 255"
  else if outOfRangeOpt intensity 0 255 then
    .validationError "Intensity must be between 0 and 255"
  else if outOfRangeOpt w 0 255 then
    .validationError "Primary white value must be between 0 and 255"
  else if (r2.isSome || g2.isSome || b2.isSome || w2.isSome) && outOfRangeOpt w2 0 255 then
    .validationError "Secondary white value must be between 0 and 255"
  else if outOfRangeOpt palette 0 46 then
    .validationError "Palette index must be between 0 and 46"
  else if outOfRangeOpt brightness 0 255 then
    .validationError "Brightness must be between 0 and 255"
  else
    let primary := [r.getD 0, g.getD 0, b.getD 0] ++ (match w with | some wv => [wv] | none => [])
    let colors :=
      if r2.isSome || g2.isSome || b2.isSome || w2.isSome then
        [primary, [r2.getD 0, g2.getD 0, b2.getD 0] ++
          (match w2 with | some wv => [wv] | none => [])]
      else [primary]
    .send { seg := [{ fx := some effect_index, sx := speed, ix := intensity,
                      col := colors, pal := palette }],
            transition := some transition, bri := brightness }

/-! ## The `_send_command` transport boundary -/

/-- The Python exceptions relevant to the controller. -/
inductive PyExc where
  | valueError (msg : String)
  | requestException (msg : String)
  | jsonDecodeError (msg : String)
  | zeroDivisionError
deriving DecidableEq, Repr

/-- Python `str(e)` for the modelled exceptions. -/
def PyExc.str : PyExc → String
  | .valueError m => m
  | .requestException m => m
  | .jsonDecodeError m => m
  | .zeroDivisionError => "integer modulo by zero"

/-- The device state JSON parsed from `GET /json/state` (keys read by
`_send_command`; `none` means the key is absent). `powerOn` is the `"on"`
key. -/
structure DeviceState where
  powerOn : Option Bool := none
  ps : Option ℤ := none
  pl : Option ℤ := none
  bri : Option ℤ := none
deriving DecidableEq, Repr

/-- Oracle for one `_send_command` call's network activity: either every
request of the call succeeds and the final parsed device state is `st`, or
some request raises `requests.RequestException` (connection failure or
timeout), or a response body fails JSON parsing. -/
inductive NetResult where
  | ok (st : DeviceState)
  | requestError (msg : String)
  | jsonError (msg : String)
deriving DecidableEq, Repr

/-- Result dictionaries returned by the controller's tick-level methods
(`none` fields are absent keys). -/
structure ResultDict where
  connected : Option Bool := none
  message : String := ""
  is_on : Option Bool := none
  preset_id : Option ℤ := none
  playlist_id : Option ℤ := none
  brightness : Option ℤ := none
deriving DecidableEq, Repr

/-- `_get_base_url`: raises `ValueError` when no IP is configured. -/
def getBaseUrl (ip_address : Option String) : Except PyExc String :=
  match ip_address with
  | none => .error (.valueError "No WLED IP configured")
  | some a => .ok ("http://" ++ a ++ "/json")

/-- The `try:` block of `_send_command` under the network oracle. The
power-on preamble and the re-read of the state after a POST are folded into
the oracle: `net = ok st` means all requests of the call succeeded and `st`
is the state JSON the method ends up holding. -/
def sendCommandBody (ip_address : Option String) (state_params : Option StateParams)
    (net : NetResult) : Except PyExc ResultDict := do
  let _ ← getBaseUrl ip_address
  match net with
  | .requestError m => .error (.requestException m)
  | .jsonError m => .error (.jsonDecodeError m)
  | .ok st =>
    let is_on := st.powerOn.getD true
    .ok { connected := some true,
          is_on := some is_on,
          preset_id := some (st.ps.getD (-1)),
          playlist_id := some (st.pl.getD (-1)),
          brightness := some (st.bri.getD 0),
          message := if is_on then "WLED is ON" else "WLED is OFF" }

/-- `_send_command`: the body with the three `except` clauses of the source
(`ValueError`, `requests.RequestException`, `json.JSONDecodeError`). Any
other exception kind would propagate, exactly as in Python. -/
def sendCommand (ip_address : Option String) (state_params : Option StateParams)
    (net : NetResult) : Except PyExc ResultDict :=
  match sendCommandBody ip_address state_params net with
  | .ok r => .ok r
  | .error (.valueError m) => .ok { connected := some false, message := m }
  | .error (.requestException m) =>
    .ok { connected := some false, message := "Cannot connect to WLED: " ++ m }
  | .error (.jsonDecodeError m) =>
    .ok { connected := some false, message := "Error parsing WLED response: " ++ m }
  | .error e => .error e

/-- Run a command action: a validation error becomes its result dictionary
without touching the network; a send becomes a `_send_command` call. The
second component is the trace of device calls made. -/
def runCmdAction (ip_address : Option String) (a : CmdAction) (net : NetResult) :
    Except PyExc (ResultDict × List StateParams) :=
  match a with
  | .validationError m => .ok ({ connected := some false, message := m }, [])
  | .send p => do
    let r ← sendCommand ip_address (some p) net
    .ok (r, [p])

/-! ## The controller and the throttle gate -/

/-- The mutable state of `LEDController`. `lastPos` models the
`_last_theta`/`_last_rho` attributes, which exist only after the first gate
update (`hasattr` in the source); they are always written together. -/
structure LEDController where
  ip_address : Option String := none
  position_sync_enabled : Bool := false
  sync_mode : String := "position"
  last_sync_time : ℚ := 0
  sync_throttle_ms : ℚ := 20
  total_leds : ℤ := 60
  segment_width : ℤ := 8
  lastPos : Option (ℚ × ℚ) := none
deriving DecidableEq, Repr

/-- The `significant_change_threshold = 0.1` of the source. -/
def significant_change_threshold : ℚ := mkRat 1 10

/-- `_should_sync_with_position_check`: admit when at least `sync_throttle_ms`
elapsed since the last admission, else when a prior sample exists and either
position delta exceeds the threshold; reject otherwise. Returns the decision
and the updated controller (`current_time` is the `now` argument). -/
def shouldSyncWithPositionCheck (c : LEDController) (now θ ρ : ℚ) :
    Bool × LEDController :=
  if now - c.last_sync_time ≥ c.sync_throttle_ms then
    (true, { c with last_sync_time := now, lastPos := some (θ, ρ) })
  else
    match c.lastPos with
    | some (lθ, lρ) =>
      if |θ - lθ| > significant_change_threshold ∨
         |ρ - lρ| > significant_change_threshold then
        (true, { c with last_sync_time := now, lastPos := some (θ, ρ) })
      else
        (false, c)
    | none => (false, c)

/-- `configure_localized_mode`: clamp `total_leds` to at least 1 and
`segment_width` to `[1, total_leds]` (using the raw argument `total_leds`,
as the source does). -/
def configureLocalizedMode (c : LEDController) (total_leds segment_width : ℤ) :
    LEDController :=
  { c with total_leds := max 1 total_leds,
           segment_width := max 1 (min segment_width total_leds) }

/-! ## The sync-strategy dispatcher (`sync_position` and the mode methods) -/

/-- `_sync_position_mode`: solid color, hue from angle, brightness from
radius, instant transition. -/
def syncPositionModeE (c : LEDController) (thetaFrac ρ : ℚ) (net : NetResult) :
    Except PyExc (ResultDict × List StateParams) :=
  let hue := thetaToHue thetaFrac
  let brightness := rhoToBrightness ρ 50 255
  let rgb := hsvToRgb255 hue 1 1
  runCmdAction c.ip_address
    (setEffectAction 0 none none (some brightness) none
      (some rgb.1) (some rgb.2.1) (some rgb.2.2) none none none none none 0) net

/-- `_sync_speed_mode`: scanner effect 47, speed/intensity scaled from the
movement speed. -/
def syncSpeedModeE (c : LEDController) (thetaFrac ρ spd : ℚ) (net : NetResult) :
    Except PyExc (ResultDict × List StateParams) :=
  let hue := thetaToHue thetaFrac
  let effect_speed := min 255 (pytrunc (|spd| * 50))
  let effect_intensity := min 255 (pytrunc (|spd| * 100))
  let brightness := rhoToBrightness ρ 50 255
  let rgb := hsvToRgb255 hue 1 1
  runCmdAction c.ip_address
    (setEffectAction 47 (some effect_speed) (some effect_intensity) (some brightness) none
      (some rgb.1) (some rgb.2.1) (some rgb.2.2) none none none none none 0) net

/-- `_sync_progress_mode`: hue shifted by up to 120 degrees with pattern
progress, solid color. -/
def syncProgressModeE (c : LEDController) (thetaFrac ρ prog : ℚ) (net : NetResult) :
    Except PyExc (ResultDict × List StateParams) :=
  let base_hue := thetaToHue thetaFrac
  let progress_hue := Int.fmod (base_hue + pytrunc (prog * 120)) 360
  let brightness := rhoToBrightness ρ 50 255
  let rgb := hsvToRgb255 progress_hue 1 1
  runCmdAction c.ip_address
    (setEffectAction 0 none none (some brightness) none
      (some rgb.1) (some rgb.2.1) (some rgb.2.2) none none none none none 0) net

/-- `_sync_trail_mode`: comet effect 28 with fixed speed 150 and intensity
200. -/
def syncTrailModeE (c : LEDController) (thetaFrac ρ : ℚ) (net : NetResult) :
    Except PyExc (ResultDict × List StateParams) :=
  let hue := thetaToHue thetaFrac
  let brightness := rhoToBrightness ρ 50 255
  let rgb := hsvToRgb255 hue 1 1
  runCmdAction c.ip_address
    (setEffectAction 28 (some 150) (some 200) (some brightness) none
      (some rgb.1) (some rgb.2.1) (some rgb.2.2) none none none none none 0) net

/-- `_sync_demo_mode`: discrete hue-sextant pure colors and a 100-255
brightness range. -/
def syncDemoModeE (c : LEDController) (thetaFrac ρ : ℚ) (net : NetResult) :
    Except PyExc (ResultDict × List StateParams) :=
  let hue := thetaToHue thetaFrac
  let brightness := 100 + pytrunc (ρ * 155)
  let rgb : ℤ × ℤ × ℤ :=
    if hue < 60 then (255, 0, 0)
    else if hue < 120 then (255, 255, 0)
    else if hue < 180 then (0, 255, 0)
    else if hue < 240 then (0, 255, 255)
    else if hue < 300 then (0, 0, 255)
    else (255, 0, 255)
  runCmdAction c.ip_address
    (setEffectAction 0 none none (some brightness) none
      (some rgb.1) (some rgb.2.1) (some rgb.2.2) none none none none none 0) net

/-- Convert a planned segment to its WLED parameter entry
(`col` is the ball color for lit segments, `[0,0,0]` otherwise, `fx = 0`). -/
def segToParam (s : Seg) (r g b : ℤ) : SegParam :=
  { start := some s.start, stop := some s.stop,
    col := [if s.lit then [r, g, b] else [0, 0, 0]], fx := some 0 }

/-- `_sync_localized_mode`. The segment arithmetic
(`% total_leds`, lines 443-444) happens before the method's inner `try`, so a
`ZeroDivisionError` for `total_leds = 0` propagates out of the method; the
inner `try/except Exception` around segment assembly and the send falls back
to `_sync_position_mode`. -/
def syncLocalizedModeE (c : LEDController) (thetaFrac ρ : ℚ) (net : NetResult) :
    Except PyExc (ResultDict × List StateParams) :=
  let led_position := ledPositionOf thetaFrac c.total_leds
  if c.total_leds = 0 then .error .zeroDivisionError
  else
    let hue := thetaToHue thetaFrac
    let brightness := rhoToBrightness ρ 50 255
    let rgb := hsvToRgb255 hue 1 1
    let segs := validSegments (localizedSegments led_position c.total_leds c.segment_width)
    let p : StateParams :=
      { seg := segs.map (fun s => segToParam s rgb.1 rgb.2.1 rgb.2.2),
        bri := some brightness, transition := some 0 }
    match sendCommand c.ip_address (some p) net with
    | .ok d => .ok (d, [p])
    | .error _ => syncPositionModeE c thetaFrac ρ net

/-- The mode dispatch of `sync_position` (its `try` block): string comparison
on `sync_mode`, unknown modes answered with a message dictionary. -/
def dispatchModeE (c : LEDController) (thetaFrac ρ : ℚ) (progress speed : Option ℚ)
    (net : NetResult) : Except PyExc (ResultDict × List StateParams) :=
  if c.sync_mode = "position" then syncPositionModeE c thetaFrac ρ net
  else if c.sync_mode = "speed" then syncSpeedModeE c thetaFrac ρ (speed.getD 0) net
  else if c.sync_mode = "progress" then syncProgressModeE c thetaFrac ρ (progress.getD 0) net
  else if c.sync_mode = "trail" then syncTrailModeE c thetaFrac ρ net
  else if c.sync_mode = "demo" then syncDemoModeE c thetaFrac ρ net
  else if c.sync_mode = "localized" then syncLocalizedModeE c thetaFrac ρ net
  else .ok ({ message := "Unknown sync mode: " ++ c.sync_mode }, [])

/-- `sync_position`, the tick-level API. In source order: first the admission
decision (the localized low-throttle special case, else the position-check
gate, which mutates the throttle memory), then the disabled check, then the
throttled check, then the dispatch guarded by `except Exception`. Returns the
result dictionary, the controller after the tick, and the trace of device
calls. -/
def syncPositionE (c : LEDController) (θ ρ thetaFrac : ℚ) (progress speed : Option ℚ)
    (now : ℚ) (net : NetResult) :
    Except PyExc (ResultDict × LEDController × List StateParams) :=
  let gate :=
    if c.sync_mode = "localized" ∧ c.sync_throttle_ms ≤ 10 then (true, c)
    else shouldSyncWithPositionCheck c now θ ρ
  let should_sync := gate.1
  let c1 := gate.2
  if c1.position_sync_enabled = false then
    .ok ({ message := "Position sync disabled" }, c1, [])
  else if should_sync = false then
    .ok ({ message := "Position sync throttled" }, c1, [])
  else
    match dispatchModeE c1 thetaFrac ρ progress speed net with
    | .ok (d, tr) => .ok (d, c1, tr)
    | .error e =>
      .ok ({ connected := some false, message := "Position sync error: " ++ e.str }, c1, [])

/-- Result dictionary and device-call trace of a tick. -/
def resultView (x : Except PyExc (ResultDict × LEDController × List StateParams)) :
    Except PyExc (ResultDict × List StateParams) :=
  x.map (fun r => (r.1, r.2.2))

/-- Controller state after a tick. -/
def resultCtrl (x : Except PyExc (ResultDict × LEDController × List StateParams)) :
    Except PyExc LEDController :=
  x.map (fun r => r.2.1)

/-- Whether an `Except` computation returned normally. -/
def exceptOk {α : Type} (x : Except PyExc α) : Bool :=
  match x with
  | .ok _ => true
  | .error _ => false

/-! ## The reactive state container (`AppState` of `src/modules/core/state.py`)

Only the fields serialized by `to_dict`/`from_dict` are modelled (runtime
handles such as the MQTT handler, the serial connection and the thread
condition are not part of the persisted record). `gearRatioValue` is the
source's `gear_ratio` attribute. In `StateRecord`, the outer `Option` is key
presence in the dictionary; for keys whose Python values may be `None`, the
inner type is itself an `Option`. -/

structure AppState where
  stop_requested : Bool
  pause_requested : Bool
  current_playing_file : Option String
  execution_progress : Option ℚ
  is_clearing : Bool
  current_theta : ℚ
  current_rho : ℚ
  speed : ℚ
  machine_x : ℚ
  machine_y : ℚ
  x_steps_per_mm : ℚ
  y_steps_per_mm : ℚ
  gearRatioValue : ℚ
  homing : ℤ
  current_playlist : Option (List String)
  current_playlist_name : Option String
  current_playlist_index : Option ℤ
  playlist_mode : String
  pause_time : ℚ
  clear_pattern : String
  port : Option String
  wled_ip : Option String
  position_sync_enabled : Bool
  position_sync_mode : String
  position_sync_throttle_ms : ℤ
  led_total_leds : ℤ
  led_segment_width : ℤ
deriving DecidableEq, Repr

/-- A flat key-value record as handed to `from_dict` (a parsed JSON object);
`none` marks an absent key. -/
structure StateRecord where
  stop_requested : Option Bool := none
  pause_requested : Option Bool := none
  current_playing_file : Option (Option String) := none
  execution_progress : Option (Option ℚ) := none
  is_clearing : Option Bool := none
  current_theta : Option ℚ := none
  current_rho : Option ℚ := none
  speed : Option ℚ := none
  machine_x : Option ℚ := none
  machine_y : Option ℚ := none
  x_steps_per_mm : Option ℚ := none
  y_steps_per_mm : Option ℚ := none
  gearRatioValue : Option ℚ := none
  homing : Option ℤ := none
  current_playlist : Option (Option (List String)) := none
  current_playlist_name : Option (Option String) := none
  current_playlist_index : Option (Option ℤ) := none
  playlist_mode : Option String := none
  pause_time : Option ℚ := none
  clear_pattern : Option String := none
  port : Option (Option String) := none
  wled_ip : Option (Option String) := none
  position_sync_enabled : Option Bool := none
  position_sync_mode : Option String := none
  position_sync_throttle_ms : Option ℤ := none
  led_total_leds : Option ℤ := none
  led_segment_width : Option ℤ := none
deriving DecidableEq, Repr

/-- `to_dict`: every serialized key is present. -/
def toDict (s : AppState) : StateRecord :=
  { stop_requested := some s.stop_requested,
    pause_requested := some s.pause_requested,
    current_playing_file := some s.current_playing_file,
    execution_progress := some s.execution_progress,
    is_clearing := some s.is_clearing,
    current_theta := some s.current_theta,
    current_rho := some s.current_rho,
    speed := some s.speed,
    machine_x := some s.machine_x,
    machine_y := some s.machine_y,
    x_steps_per_mm := some s.x_steps_per_mm,
    y_steps_per_mm := some s.y_steps_per_mm,
    gearRatioValue := some s.gearRatioValue,
    homing := some s.homing,
    current_playlist := some s.current_playlist,
    current_playlist_name := some s.current_playlist_name,
    current_playlist_index := some s.current_playlist_index,
    playlist_mode := some s.playlist_mode,
    pause_time := some s.pause_time,
    clear_pattern := some s.clear_pattern,
    port := some s.port,
    wled_ip := some s.wled_ip,
    position_sync_enabled := some s.position_sync_enabled,
    position_sync_mode := some s.position_sync_mode,
    position_sync_throttle_ms := some s.position_sync_throttle_ms,
    led_total_leds := some s.led_total_leds,
    led_segment_width := some s.led_segment_width }

/-- `from_dict`: `data.get(key, default)` for every serialized field (`get`
with no second argument defaults to `None`). -/
def fromDict (r : StateRecord) : AppState :=
  { stop_requested := r.stop_requested.getD false,
    pause_requested := r.pause_requested.getD false,
    current_playing_file := r.current_playing_file.getD none,
    execution_progress := r.execution_progress.getD none,
    is_clearing := r.is_clearing.getD false,
    current_theta := r.current_theta.getD 0,
    current_rho := r.current_rho.getD 0,
    speed := r.speed.getD 150,
    machine_x := r.machine_x.getD 0,
    machine_y := r.machine_y.getD 0,
    x_steps_per_mm := r.x_steps_per_mm.getD 0,
    y_steps_per_mm := r.y_steps_per_mm.getD 0,
    gearRatioValue := r.gearRatioValue.getD 10,
    homing := r.homing.getD 0,
    current_playlist := r.current_playlist.getD none,
    current_playlist_name := r.current_playlist_name.getD none,
    current_playlist_index := r.current_playlist_index.getD none,
    playlist_mode := r.playlist_mode.getD "loop",
    pause_time := r.pause_time.getD 0,
    clear_pattern := r.clear_pattern.getD "none",
    port := r.port.getD none,
    wled_ip := r.wled_ip.getD none,
    position_sync_enabled := r.position_sync_enabled.getD false,
    position_sync_mode := r.position_sync_mode.getD "position",
    position_sync_throttle_ms := r.position_sync_throttle_ms.getD 50,
    led_total_leds := r.led_total_leds.getD 60,
    led_segment_width := r.led_segment_width.getD 8 }

/-- The field values set by `__init__` before `load()` runs (the constructor
defaults). -/
def initAppState : AppState :=
  { stop_requested := false,
    pause_requested := false,
    current_playing_file := none,
    execution_progress := none,
    is_clearing := false,
    current_theta := 0,
    current_rho := 0,
    speed := 130,
    machine_x := 0,
    machine_y := 0,
    x_steps_per_mm := 0,
    y_steps_per_mm := 0,
    gearRatioValue := 10,
    homing := 0,
    current_playlist := none,
    current_playlist_name := none,
    current_playlist_index := some 0,
    playlist_mode := "loop",
    pause_time := 0,
    clear_pattern := "none",
    port := none,
    wled_ip := none,
    position_sync_enabled := false,
    position_sync_mode := "position",
    position_sync_throttle_ms := 50,
    led_total_leds := 60,
    led_segment_width := 8 }

/-- A controller in localized mode with the low-throttle special case active
and a previously recorded gate sample. -/
def lowThrottleCtrl : LEDController :=
  { position_sync_enabled := true, sync_mode := "localized", sync_throttle_ms := 10,
    last_sync_time := 0, lastPos := some (0, 0) }

/-- A controller with a previously recorded gate sample `(0, 0)` admitted at
time 0. -/
def throttledCtrl : LEDController :=
  { last_sync_time := 0, sync_throttle_ms := 20, lastPos := some (0, 0) }

/-! ## Helper lemmas -/

theorem outOfRangeOpt_eq_true {v lo hi : ℤ} (h : ¬ (lo ≤ v ∧ v ≤ hi)) :
    outOfRangeOpt (some v) lo hi = true := by
  simp only [outOfRangeOpt, decide_eq_true_eq]
  omega

theorem outOfRangeOpt_none (lo hi : ℤ) : outOfRangeOpt none lo hi = false := rfl

theorem shouldSync_preserves_enabled (c : LEDController) (now θ ρ : ℚ) :
    (shouldSyncWithPositionCheck c now θ ρ).2.position_sync_enabled =
      c.position_sync_enabled := by
  unfold shouldSyncWithPositionCheck
  split
  · rfl
  · split
    · split
      · rfl
      · rfl
    · rfl

/-! ## Claims -/

/-- C1: the claim states that for `totalLeds ≥ 1`, `1 ≤ segmentWidth ≤
totalLeds` and any theta, the filtered localized-mode segments cover every
LED index exactly once. The code violates this: at `totalLeds = 60`,
`segmentWidth = 8` and a theta whose normalized fraction is `4/60`
(`ledPosition = 4`, `start_led = 0`, non-wrapping case), the
`start_led - 1 if start_led > 0 else 0` special case emits a degenerate off
segment `[0,0]` that survives the `start <= stop` filter and overlaps the lit
segment `[0,8]`, so LED 0 is covered twice. -/
theorem c1_localized_plan_double_covers_led_zero :
    ledPositionOf (mkRat 4 60) 60 = 4 ∧
    validSegments (localizedSegments 4 60 8) =
      [⟨0, 0, false⟩, ⟨0, 8, true⟩, ⟨9, 59, false⟩] ∧
    coverCount (validSegments (localizedSegments 4 60 8)) 0 = 2 := by
  decide

/-- C2 counterexample: with sync disabled and the throttle interval elapsed,
`sync_position` still consults the gate first, so the throttle memory is
mutated (`last_sync_time` becomes `now`, `lastPos` the new sample) even
though the tick reports "Position sync disabled"; the claim's "throttle
memory is left unchanged" is false. -/
theorem c2_disabled_tick_mutates_gate_memory :
    (({} : LEDController)).position_sync_enabled = false ∧
    (({} : LEDController)).last_sync_time = 0 ∧
    (({} : LEDController)).lastPos = none ∧
    resultCtrl (syncPositionE {} 1 1 0 none none 100 (.ok {})) =
      .ok { ip_address := none, position_sync_enabled := false, sync_mode := "position",
            last_sync_time := 100, sync_throttle_ms := 20, total_leds := 60,
            segment_width := 8, lastPos := some (1, 1) } := by
  decide

/-- C2 (amended): when position sync is disabled, every tick returns the
distinct "Position sync disabled" result (not the throttled one) and never
calls the lighting device (empty device-call trace) — but the admission check
runs first and may update the throttle memory. -/
theorem c2_disabled_tick_reports_disabled_without_device_call
    (c : LEDController) (θ ρ thetaFrac : ℚ) (progress speed : Option ℚ)
    (now : ℚ) (net : NetResult) (h : c.position_sync_enabled = false) :
    resultView (syncPositionE c θ ρ thetaFrac progress speed now net) =
      .ok ({ message := "Position sync disabled" }, []) := by
  unfold syncPositionE
  by_cases hsp : c.sync_mode = "localized" ∧ c.sync_throttle_ms ≤ 10
  · simp only [if_pos hsp, h]
    rfl
  · simp only [if_neg hsp]
    rw [if_pos (by rw [shouldSync_preserves_enabled, h])]
    rfl

/-- C2 witness: the default controller is disabled and the theorem applies. -/
theorem c2_disabled_witness :
    resultView (syncPositionE {} 1 1 0 none none 100 (.ok {})) =
      .ok ({ message := "Position sync disabled" }, []) :=
  c2_disabled_tick_reports_disabled_without_device_call {} 1 1 0 none none 100 (.ok {}) rfl

/-- C3 counterexample: RGB color channels are not range-checked. `set_color`
with `r = 300` and `set_effect` with `r = 300, g = -5` both forward the
out-of-range channels to the transport instead of returning a validation
error. -/
theorem c3_color_channel_not_validated :
    setColorAction (some 300) none none none =
      .send { seg := [{ col := [[300, 0, 0]] }] } ∧
    setEffectAction 0 none none none none (some 300) (some (-5)) none none none none none none 0 =
      .send { seg := [{ fx := some 0, col := [[300, -5, 0]] }], transition := some 0 } := by
  decide

/-- C3 (amended): every range check the source performs — brightness (also in
`set_brightness`), speed, intensity, primary and secondary white channels,
effect index, palette index — yields a `connected:false` validation result
without any transport being attempted; the RGB channels are not validated. -/
theorem c3_validation_before_transport (v fxv palv : ℤ)
    (hv : ¬ (0 ≤ v ∧ v ≤ 255)) (hfx : ¬ (0 ≤ fxv ∧ fxv ≤ 101))
    (hpal : ¬ (0 ≤ palv ∧ palv ≤ 46)) :
    setBrightnessAction v = .validationError "Brightness must be between 0 and 255" ∧
    setColorAction none none none (some v) =
      .validationError "White value must be between 0 and 255" ∧
    setEffectAction fxv none none none none none none none none none none none none 0 =
      .validationError "Effect index must be between 0 and 101" ∧
    setEffectAction 0 (some v) none none none none none none none none none none none 0 =
      .validationError "Speed must be between 0 and 255" ∧
    setEffectAction 0 none (some v) none none none none none none none none none none 0 =
      .validationError "Intensity must be between 0 and 255" ∧
    setEffectAction 0 none none none none none none none (some v) none none none none 0 =
      .validationError "Primary white value must be between 0 and 255" ∧
    setEffectAction 0 none none none none none none none none none none none (some v) 0 =
      .validationError "Secondary white value must be between 0 and 255" ∧
    setEffectAction 0 none none none (some palv) none none none none none none none none 0 =
      .validationError "Palette index must be between 0 and 46" ∧
    setEffectAction 0 none none (some v) none none none none none none none none none 0 =
      .validationError "Brightness must be between 0 and 255" := by
  have hv' : outOfRangeOpt (some v) 0 255 = true := outOfRangeOpt_eq_true hv
  have hpal' : outOfRangeOpt (some palv) 0 46 = true := outOfRangeOpt_eq_true hpal
  refine ⟨?_, ?_, ?_, ?_, ?_, ?_, ?_, ?_, ?_⟩
  · rw [setBrightnessAction, if_pos hv]
  · simp only [setColorAction]
    rw [if_pos hv]
  · rw [setEffectAction, if_pos hfx]
  all_goals norm_num [setEffectAction, outOfRangeOpt_none, hv', hpal']

/-- C3 witness: brightness 300 is rejected by validation. -/
theorem c3_validation_witness :
    setBrightnessAction 300 = .validationError "Brightness must be between 0 and 255" :=
  (c3_validation_before_transport 300 102 47 (by norm_num) (by norm_num) (by norm_num)).1

/-- C4 counterexample: in localized mode with `sync_throttle_ms = 10`, the
special case admits the tick without touching the gate, so after an admitted
sample at `theta = 5` (a device command is issued: the call trace has length
1 and the dispatch ran, answering "No WLED IP configured") the throttle
memory still holds the old sample `(0, 0)` and `last_sync_time = 0` — the
claim's "memory reflects that admitted sample" is false. -/
theorem c4_localized_special_case_skips_memory :
    lowThrottleCtrl.lastPos = some (0, 0) ∧
    lowThrottleCtrl.last_sync_time = 0 ∧
    resultCtrl (syncPositionE lowThrottleCtrl 5 0 0 none none 5 (.ok {})) =
      .ok lowThrottleCtrl ∧
    (resultView (syncPositionE lowThrottleCtrl 5 0 0 none none 5 (.ok {}))).map
        (fun v => (v.1.message, v.2.length)) =
      .ok ("No WLED IP configured", 1) := by
  decide

/-- C4 (amended): every sample admitted through the position-check gate
updates the throttle memory to that sample; a tick admitted by the localized
low-throttle special case bypasses the gate and leaves the controller (hence
the throttle memory) unchanged. -/
theorem c4_gate_admission_updates_memory (c : LEDController) (θ ρ thetaFrac : ℚ)
    (progress speed : Option ℚ) (now : ℚ) (net : NetResult) :
    ((shouldSyncWithPositionCheck c now θ ρ).1 = true →
      (shouldSyncWithPositionCheck c now θ ρ).2.last_sync_time = now ∧
      (shouldSyncWithPositionCheck c now θ ρ).2.lastPos = some (θ, ρ)) ∧
    (c.sync_mode = "localized" → c.sync_throttle_ms ≤ 10 →
      resultCtrl (syncPositionE c θ ρ thetaFrac progress speed now net) = .ok c) := by
  constructor
  · intro h
    by_cases ht : now - c.last_sync_time ≥ c.sync_throttle_ms
    · simp only [shouldSyncWithPositionCheck]
      rw [if_pos ht]
      exact ⟨rfl, rfl⟩
    · rcases hl : c.lastPos with _ | ⟨lθ, lρ⟩
      · exfalso
        simp only [shouldSyncWithPositionCheck, hl] at h
        rw [if_neg ht] at h
        simp at h
      · by_cases hsig : |θ - lθ| > significant_change_threshold ∨
          |ρ - lρ| > significant_change_threshold
        · simp only [shouldSyncWithPositionCheck, hl]
          rw [if_neg ht, if_pos hsig]
          exact ⟨rfl, rfl⟩
        · exfalso
          simp only [shouldSyncWithPositionCheck, hl] at h
          rw [if_neg ht, if_neg hsig] at h
          simp at h
  · intro hmode hthr
    simp only [syncPositionE, if_pos (And.intro hmode hthr), resultCtrl]
    repeat' split
    all_goals rfl

/-- C4 witness: an admitted tick at `now = 100` records the sample, and a
localized low-throttle tick leaves the controller unchanged. -/
theorem c4_gate_admission_witness :
    (shouldSyncWithPositionCheck {} 100 1 2).2.lastPos = some (1, 2) ∧
    resultCtrl (syncPositionE lowThrottleCtrl 5 0 0 none none 5 (.ok {})) =
      .ok lowThrottleCtrl :=
  ⟨((c4_gate_admission_updates_memory {} 1 2 0 none none 100 (.ok {})).1 (by decide)).2,
   (c4_gate_admission_updates_memory lowThrottleCtrl 5 0 0 none none 5 (.ok {})).2
     rfl (by decide)⟩

/-- C5: for every controller state (any mode, any IP configuration), every
input and every transport outcome (success, connection failure or timeout as
`requestError`, parse failure as `jsonError`, missing device address as
`ip_address = none`), the tick-level `sync_position` returns a result
dictionary and never lets an exception escape. -/
theorem c5_sync_position_never_throws (c : LEDController) (θ ρ thetaFrac : ℚ)
    (progress speed : Option ℚ) (now : ℚ) (net : NetResult) :
    exceptOk (syncPositionE c θ ρ thetaFrac progress speed now net) = true := by
  simp only [syncPositionE]
  repeat' split
  all_goals rfl

/-- C6: with a prior recorded sample, a tick arriving within the throttle
interval whose theta and rho deltas are both at most 0.1 is rejected, and a
tick whose delta exceeds 0.1 on either axis is admitted regardless of
elapsed time. -/
theorem c6_throttle_gate_decision (c : LEDController) (now θ ρ lθ lρ : ℚ)
    (hprior : c.lastPos = some (lθ, lρ)) :
    (now - c.last_sync_time < c.sync_throttle_ms →
      |θ - lθ| ≤ significant_change_threshold →
      |ρ - lρ| ≤ significant_change_threshold →
      (shouldSyncWithPositionCheck c now θ ρ).1 = false) ∧
    ((significant_change_threshold < |θ - lθ| ∨ significant_change_threshold < |ρ - lρ|) →
      (shouldSyncWithPositionCheck c now θ ρ).1 = true) := by
  constructor
  · intro h1 h2 h3
    have hno : ¬ (|θ - lθ| > significant_change_threshold ∨
        |ρ - lρ| > significant_change_threshold) := by
      push_neg
      exact ⟨h2, h3⟩
    simp only [shouldSyncWithPositionCheck, hprior]
    rw [if_neg (not_le.mpr h1), if_neg hno]
  · intro h
    by_cases ht : now - c.last_sync_time ≥ c.sync_throttle_ms
    · simp only [shouldSyncWithPositionCheck, hprior]
      rw [if_pos ht]
    · simp only [shouldSyncWithPositionCheck, hprior]
      rw [if_neg ht, if_pos h]

/-- C6 witness: at `now = 5` with throttle 20 and last sample `(0, 0)`, the
tick `(0, 0)` is rejected and the tick `(1, 0)` is admitted. -/
theorem c6_throttle_gate_witness :
    (shouldSyncWithPositionCheck throttledCtrl 5 0 0).1 = false ∧
    (shouldSyncWithPositionCheck throttledCtrl 5 1 0).1 = true :=
  ⟨(c6_throttle_gate_decision throttledCtrl 5 0 0 0 0 rfl).1
      (by decide) (by decide) (by decide),
   (c6_throttle_gate_decision throttledCtrl 5 1 0 0 0 rfl).2
      (Or.inl (by decide))⟩

/-- C7 counterexample: at `totalLeds = 60`, `segmentWidth = 8`, `theta = 0`
the lit ranges the code emits are not `[0,3]` and `[56,59]`. -/
theorem c7_lit_ranges_counterexample :
    litRanges (validSegments (localizedSegments (ledPositionOf 0 60) 60 8)) ≠
      [(0, 3), (56, 59)] := by
  decide

/-- C7 (amended): at `totalLeds = 60`, `segmentWidth = 8`, `theta = 0` the
planner computes `ledPosition = 0` and emits exactly the two lit ranges
`[0,4]` and `[56,59]` (the inclusive `end_led = led_position + half_width`
makes the first lit range one LED longer than the claim states). -/
theorem c7_localized_scenario_amended :
    ledPositionOf 0 60 = 0 ∧
    litRanges (validSegments (localizedSegments (ledPositionOf 0 60) 60 8)) =
      [(0, 4), (56, 59)] := by
  decide

/-- C8: serializing an `AppState` with `to_dict` and applying `from_dict` to
the resulting record reproduces every serialized field exactly. -/
theorem c8_state_round_trip (s : AppState) : fromDict (toDict s) = s := rfl

/-- C9: after `configure_localized_mode` with any integer arguments
(including zero and negatives), the instance satisfies `1 ≤ total_leds` and
`1 ≤ segment_width ≤ total_leds`. -/
theorem c9_configure_localized_mode_invariant (c : LEDController)
    (total_leds segment_width : ℤ) :
    1 ≤ (configureLocalizedMode c total_leds segment_width).total_leds ∧
    1 ≤ (configureLocalizedMode c total_leds segment_width).segment_width ∧
    (configureLocalizedMode c total_leds segment_width).segment_width ≤
      (configureLocalizedMode c total_leds segment_width).total_leds := by
  unfold configureLocalizedMode
  simp only []
  omega

/-- C10: a record lacking the `"speed"` key makes `from_dict` set speed to
150, while a freshly constructed state holds the constructor default 130, so
loading a speed-less record does not restore the constructor default. -/
theorem c10_from_dict_speed_default (r : StateRecord) (h : r.speed = none) :
    (fromDict r).speed = 150 ∧ initAppState.speed = 130 ∧
    (fromDict r).speed ≠ initAppState.speed := by
  refine ⟨?_, rfl, ?_⟩
  · show r.speed.getD 150 = 150
    rw [h]
    rfl
  · show r.speed.getD 150 ≠ (130 : ℚ)
    rw [h]
    decide

/-- C10 witness: the empty record. -/
theorem c10_speed_default_witness : (fromDict {}).speed = 150 :=
  (c10_from_dict_speed_default {} rfl).1

end DuneWeaver
